import Mathlib

/-!
Shallow embedding of the Splendor x402 native-payments middleware
(Core-Blockchain/x402-middleware/index.js) and of the revenue-split
policy described by the specification of the payment core.

JavaScript values that the middleware inspects (prices, configuration
options, decoded payloads) are embedded as the inductive `JsValue`.
JS numbers are embedded as exact rationals; where the source relies on
IEEE-754 doubles (`Number(x)`, `Math.floor(x * 1e18)`) the doc comment
of the embedding records why the rational value agrees with the double
evaluation on the inputs the theorems use.
-/

namespace X402

/-- Embedding of the fragment of JavaScript values the middleware
manipulates: `null`, `undefined`, `NaN`, finite numbers (as exact
rationals) and strings. -/
inductive JsValue where
  | vnull
  | vundefined
  | vnan
  | vnum (q : ℚ)
  | vstr (s : String)
  deriving DecidableEq, Repr

/-- JavaScript truthiness (`if (v)`) on the embedded value fragment:
`null`, `undefined`, `NaN`, `0` and the empty string are falsy. -/
def jsTruthy : JsValue → Bool
  | .vnull => false
  | .vundefined => false
  | .vnan => false
  | .vnum q => q != 0
  | .vstr s => s != ""

/-- Numeric value of a run of decimal digit characters. -/
def digitsVal (l : List Char) : ℕ :=
  l.foldl (fun a c => a * 10 + (c.toNat - '0'.toNat)) 0

/-- Parse an unsigned decimal literal (`123`, `123.45`, `.45`, `12.`)
as an exact rational; `none` models `NaN`.  This follows the JS
`StringNumericLiteral` grammar restricted to plain decimal literals —
the only price syntax the middleware and its documentation use
(hex literals, exponents and surrounding whitespace are outside the
embedded fragment).  The rational is built with `mkRat` so that the
kernel can evaluate it. -/
def parseUnsignedDec (l : List Char) : Option ℚ :=
  match l.span Char.isDigit with
  | (ip, []) => if ip.isEmpty then none else some (mkRat (digitsVal ip) 1)
  | (ip, '.' :: fp) =>
      if fp.all Char.isDigit && !(ip.isEmpty && fp.isEmpty) then
        some (mkRat (digitsVal ip * 10 ^ fp.length + digitsVal fp) (10 ^ fp.length))
      else none
  | _ => none

/-- JS `Number(v)` coercion on the embedded fragment: `null ↦ 0`,
`undefined ↦ NaN`, the empty string `↦ 0`, decimal strings parse
exactly; `none` models `NaN`. -/
def jsToNumber : JsValue → Option ℚ
  | .vnull => some 0
  | .vundefined => none
  | .vnan => none
  | .vnum q => some q
  | .vstr s =>
      match s.toList with
      | [] => some 0
      | '-' :: rest => (parseUnsignedDec rest).map (fun q => -q)
      | '+' :: rest => parseUnsignedDec rest
      | l => parseUnsignedDec l

/-- Hexadecimal digit characters as produced by JS `toString(16)`
(lowercase). -/
def hexDigitChar (d : ℕ) : Char :=
  if d < 10 then Char.ofNat ('0'.toNat + d) else Char.ofNat ('a'.toNat + (d - 10))

/-- Fuel-indexed core of hexadecimal rendering, most significant digit
first, mirroring the digit loop of JS `Number.prototype.toString(16)`. -/
def natToHexCore : ℕ → ℕ → List Char → List Char
  | 0, _, acc => acc
  | fuel + 1, n, acc =>
      let acc := hexDigitChar (n % 16) :: acc
      if n / 16 = 0 then acc else natToHexCore fuel (n / 16) acc

/-- Hexadecimal rendering of a natural number, lowercase, no leading
zeros (`0 ↦ "0"`), as JS `n.toString(16)` renders integers. -/
def natToHex (n : ℕ) : String :=
  String.mk (natToHexCore (n + 1) n [])

/-- `spldToWei` from `x402-middleware/index.js`: converts an SPLD amount
(JS value) to a hex wei string.  The source computes
`Math.floor(Number(amountInput) * 1e18)` and renders it with
`toString(16)`; `null`/`undefined` and non-numeric inputs throw, which
the embedding returns as `none`.  The multiplication is embedded as
exact rational arithmetic: for the decimal prices the theorems use
(`0.0001`, `0.001`), the double evaluation rounds to the same integer —
at `0.0001` the representation error of the double nearest `1e-4`
scaled by `1e18` is about `4.8e-3`, below the half-ulp `7.8e-3` of
doubles near `1e14`, and similarly at `0.001` (error `2.1e-2` below
half-ulp `6.25e-2` near `1e15`), so `Math.floor` lands on the exact
product in both cases.  The floor of `q * 10^18` is computed as the
floor-division `Int.fdiv (q.num * 10^18) q.den` (the denominator of a
`Rat` is positive).  Negative amounts render as JS does, with the
minus sign after the `0x` prefix. -/
def spldToWei (amountInput : JsValue) : Option String :=
  match amountInput with
  | .vnull => none
  | .vundefined => none
  | v =>
      match jsToNumber v with
      | none => none
      | some q =>
          let wei : ℤ := Int.fdiv (q.num * 10 ^ 18) q.den
          some ("0x" ++ (if wei < 0 then "-" ++ natToHex (-wei).toNat else natToHex wei.toNat))

/-- Fuel-indexed core of glob matching; every recursive call shrinks
`pattern.length + s.length`, so fuel `pattern.length + s.length + 1`
(supplied by `globMatch`) never runs out.  Structural recursion on the
fuel keeps the function kernel-evaluable. -/
def globMatchCore : ℕ → List Char → List Char → Bool
  | 0, _, _ => false
  | _ + 1, [], s => s.isEmpty
  | fuel + 1, p :: ps, [] => p == '*' && globMatchCore fuel ps []
  | fuel + 1, p :: ps, c :: cs =>
      if p == '*' then globMatchCore fuel ps (c :: cs) || globMatchCore fuel (p :: ps) cs
      else p == c && globMatchCore fuel ps cs

/-- Glob matching: the pattern's characters are literal except `*`,
which matches any (possibly empty) run of characters.  This embeds the
regex `'^' + pattern.replace(/\*/g, '.*') + '$'` that `matchPath`
builds, for patterns whose other characters carry no regex meaning —
the pattern language the middleware documents (`/api/data/*`). -/
def globMatch (pat s : List Char) : Bool :=
  globMatchCore (pat.length + s.length + 1) pat s

/-- `matchPath` from `index.js`: wildcard patterns match by glob
expansion, patterns without `*` match by string equality. -/
def matchPath (path pat : String) : Bool :=
  if pat.toList.contains '*' then globMatch pat.toList path.toList
  else path == pat

/-- The fall-through of `getPrice` once the exact-match lookup did not
return: scan `Object.entries(pricing)` in insertion order through
`matchPath`, then fall back to `defaultPrice` when it is neither
`null` nor `undefined`, else return `null`. -/
def getPriceScan (defaultPrice : JsValue) (pricing : List (String × JsValue))
    (path : String) : JsValue :=
  match pricing.find? (fun pp => matchPath path pp.1) with
  | some pp => pp.2
  | none =>
      if defaultPrice ≠ JsValue.vnull ∧ defaultPrice ≠ JsValue.vundefined then defaultPrice
      else JsValue.vnull

/-- `getPrice` from `index.js`: return `pricing[path]` when truthy,
otherwise scan the entries, then the default price.  A JS object is
embedded as an insertion-ordered association list. -/
def getPrice (defaultPrice : JsValue) (pricing : List (String × JsValue))
    (path : String) : JsValue :=
  match pricing.lookup path with
  | some v => if jsTruthy v then v else getPriceScan defaultPrice pricing path
  | none => getPriceScan defaultPrice pricing path

/-- The middleware instance: the fields `constructor` assigns. -/
structure Middleware where
  rpcUrl : JsValue
  facilitatorUrl : JsValue
  payTo : JsValue
  pricing : List (String × JsValue)
  defaultPrice : JsValue
  network : JsValue
  chainId : JsValue
  deriving DecidableEq, Repr

/-- The `options` object passed to the constructor; `none` means the
key is absent (`hasOwnProperty` false, value `undefined`). -/
structure Options where
  rpcUrl : Option JsValue := none
  facilitatorUrl : Option JsValue := none
  payTo : Option JsValue := none
  pricing : Option (List (String × JsValue)) := none
  defaultPrice : Option JsValue := none
  network : Option JsValue := none
  chainId : Option JsValue := none
  deriving DecidableEq, Repr

/-- JS `a || b` for an optionally-present `a`: the default `b` is used
when the key is absent or its value is falsy. -/
def jsOr (v : Option JsValue) (d : JsValue) : JsValue :=
  match v with
  | some x => if jsTruthy x then x else d
  | none => d

/-- The `SplendorX402Middleware` constructor: assigns the fields with
their `||` defaults, reads `defaultPrice` through `hasOwnProperty`
(so an explicitly supplied `null` is kept), and throws
`payTo address is required` when `this.payTo` is falsy.  The throw is
embedded as `Except.error`. -/
def mkMiddleware (o : Options) : Except String Middleware :=
  let rpcUrl := jsOr o.rpcUrl (.vstr "http://localhost:80")
  let facilitatorUrl := jsOr o.facilitatorUrl rpcUrl
  let payTo := o.payTo.getD .vundefined
  let pricing := o.pricing.getD []
  let defaultPrice := o.defaultPrice.getD .vnull
  let network := jsOr o.network (.vstr "splendor")
  let chainId := jsOr o.chainId (.vnum 2691)
  if jsTruthy payTo then
    .ok ⟨rpcUrl, facilitatorUrl, payTo, pricing, defaultPrice, network, chainId⟩
  else
    .error "payTo address is required"

/-- A `PaymentRequirements` literal as the middleware builds it. -/
structure Requirements where
  scheme : String
  network : JsValue
  maxAmountRequired : String
  resource : String
  description : String
  mimeType : String
  payTo : JsValue
  maxTimeoutSeconds : ℕ
  asset : String
  deriving DecidableEq, Repr

/-- The requirements literal built inside `verifyPayment`; `none` when
`spldToWei` throws on the expected amount. -/
def verifyRequirements (mw : Middleware) (expectedAmount : JsValue) : Option Requirements :=
  (spldToWei expectedAmount).map fun w =>
    { scheme := "exact"
      network := mw.network
      maxAmountRequired := w
      resource := "api-access"
      description := "API access payment"
      mimeType := "application/json"
      payTo := mw.payTo
      maxTimeoutSeconds := 300
      asset := "0x0000000000000000000000000000000000000000" }

/-- The requirements literal built inside `settlePayment` (duplicated
verbatim in the source). -/
def settleRequirements (mw : Middleware) (expectedAmount : JsValue) : Option Requirements :=
  (spldToWei expectedAmount).map fun w =>
    { scheme := "exact"
      network := mw.network
      maxAmountRequired := w
      resource := "api-access"
      description := "API access payment"
      mimeType := "application/json"
      payTo := mw.payTo
      maxTimeoutSeconds := 300
      asset := "0x0000000000000000000000000000000000000000" }

/-- The `accepts[0]` literal built inside `sendPaymentRequired`. -/
def challengeAccepts (mw : Middleware) (resource : String) (price : JsValue) :
    Option Requirements :=
  (spldToWei price).map fun w =>
    { scheme := "exact"
      network := mw.network
      maxAmountRequired := w
      resource := resource
      description := "Payment required for " ++ resource
      mimeType := "application/json"
      payTo := mw.payTo
      maxTimeoutSeconds := 300
      asset := "0x0000000000000000000000000000000000000000" }

/-- The decoded `X-Payment` header (`JSON.parse` of its base64
decoding) — an arbitrary JS value passed through to the facilitator. -/
abbrev PaymentData := JsValue

/-- What one `axios.post` of a JSON-RPC request can come back as:
the transport throws (`transportError`, caught by the surrounding
`try`), the reply carries an `error` member (in which case a JSON-RPC
reply carries no `result`, so `response.data.result` is `undefined`),
or the reply carries a `result`. -/
inductive RpcReply (α : Type) where
  | transportError
  | errorReply (message : String)
  | resultReply (result : α)
  deriving DecidableEq, Repr

/-- The `result` shape of `x402_verify`. -/
structure VerifyRpcResult where
  isValid : Bool
  invalidReason : Option String
  payerAddress : Option String
  deriving DecidableEq, Repr

/-- The `result` shape of `x402_settle`. -/
structure SettleRpcResult where
  success : Bool
  error : Option String
  txHash : Option String
  deriving DecidableEq, Repr

/-- The `result` shape of `x402_supported`. -/
structure SupportedResult where
  kinds : List (String × String)
  deriving DecidableEq, Repr

/-- The facilitator endpoint, as an oracle mapping each JSON-RPC
request the middleware can post to its reply. -/
structure Facilitator where
  verifyReply : Requirements → PaymentData → RpcReply VerifyRpcResult
  settleReply : Requirements → PaymentData → RpcReply SettleRpcResult
  supportedReply : RpcReply SupportedResult

/-- A JSON-RPC request the middleware posts to the facilitator. -/
inductive RpcCall where
  | x402Verify (reqs : Requirements) (payload : PaymentData)
  | x402Settle (reqs : Requirements) (payload : PaymentData)
  deriving DecidableEq, Repr

/-- What `verifyPayment` resolves to. -/
structure VerifyOutcome where
  success : Bool
  error : Option String
  payerAddress : Option String
  deriving DecidableEq, Repr

/-- What `settlePayment` resolves to. -/
structure SettleOutcome where
  success : Bool
  error : Option String
  txHash : Option String
  deriving DecidableEq, Repr

/-- `verifyPayment` from `index.js`, paired with the list of JSON-RPC
requests it posts.  `dec` embeds
`JSON.parse(Buffer.from(paymentHeader, 'base64').toString())`, with
`none` for a decode exception; every throw inside the `try` (decode,
`spldToWei`, transport) resolves to
`{success: false, error: 'Verification failed'}`. -/
def verifyPayment (mw : Middleware) (dec : String → Option PaymentData)
    (fac : Facilitator) (paymentHeader : String) (expectedAmount : JsValue) :
    VerifyOutcome × List RpcCall :=
  match dec paymentHeader with
  | none => (⟨false, some "Verification failed", none⟩, [])
  | some pd =>
      match verifyRequirements mw expectedAmount with
      | none => (⟨false, some "Verification failed", none⟩, [])
      | some reqs =>
          match fac.verifyReply reqs pd with
          | .transportError => (⟨false, some "Verification failed", none⟩, [.x402Verify reqs pd])
          | .errorReply m => (⟨false, some m, none⟩, [.x402Verify reqs pd])
          | .resultReply r =>
              (⟨r.isValid, r.invalidReason, r.payerAddress⟩, [.x402Verify reqs pd])

/-- `settlePayment` from `index.js`, paired with the list of JSON-RPC
requests it posts; every throw inside the `try` resolves to
`{success: false, error: 'Settlement failed'}`. -/
def settlePayment (mw : Middleware) (dec : String → Option PaymentData)
    (fac : Facilitator) (paymentHeader : String) (expectedAmount : JsValue) :
    SettleOutcome × List RpcCall :=
  match dec paymentHeader with
  | none => (⟨false, some "Settlement failed", none⟩, [])
  | some pd =>
      match settleRequirements mw expectedAmount with
      | none => (⟨false, some "Settlement failed", none⟩, [])
      | some reqs =>
          match fac.settleReply reqs pd with
          | .transportError => (⟨false, some "Settlement failed", none⟩, [.x402Settle reqs pd])
          | .errorReply m => (⟨false, some m, none⟩, [.x402Settle reqs pd])
          | .resultReply r => (⟨r.success, r.error, r.txHash⟩, [.x402Settle reqs pd])

/-- What `getSupported` returns: the `kinds` object, or the JS value
`undefined` (when the reply carried an `error` and hence no `result`,
the source returns `response.data.result` without checking). -/
inductive SupportedReturn where
  | obj (kinds : List (String × String))
  | jsUndefined
  deriving DecidableEq, Repr

/-- `getSupported` from `index.js`: returns `response.data.result`
with no error check; only a transport throw reaches the `catch` that
returns `{kinds: []}`. -/
def getSupported (fac : Facilitator) : SupportedReturn :=
  match fac.supportedReply with
  | .transportError => .obj []
  | .errorReply _ => .jsUndefined
  | .resultReply r => .obj r.kinds

/-- The `402` body `sendPaymentRequired` sends. -/
structure PaymentChallenge where
  x402Version : ℕ
  accepts : List Requirements
  error : Option String
  deriving DecidableEq, Repr

/-- How one request through the Express handler ends. -/
inductive ExpressResult where
  | notConfigured500
  | nextFree
  | paymentRequired (challenge : PaymentChallenge)
  | settlementFailed402 (details : Option String)
  | nextPaid (amount : JsValue) (txHash : Option String) (payer : Option String)
  | processingError500
  deriving DecidableEq, Repr

/-- `sendPaymentRequired` from `index.js`: 402 with the requirements
and the optional failure reason.  When `spldToWei(price)` throws, the
exception escapes to the handler's `catch`, which answers
`500 Payment processing error` — embedded here as the result the
handler ends with. -/
def sendPaymentRequired (mw : Middleware) (resource : String) (price : JsValue)
    (err : Option String) : ExpressResult :=
  match challengeAccepts mw resource price with
  | none => .processingError500
  | some reqs => .paymentRequired ⟨1, [reqs], err⟩

/-- The Express handler returned by `express()` (invoked as the
factory `splendorX402Express` does, with no per-route pricing
overrides, so `localPricing = this.pricing`), paired with the list of
JSON-RPC requests the request triggered, in order. -/
def express (mw : Middleware) (dec : String → Option PaymentData) (fac : Facilitator)
    (path : String) (paymentHeader : Option String) : ExpressResult × List RpcCall :=
  let price := getPrice mw.defaultPrice mw.pricing path
  if price = JsValue.vnull ∨ price = JsValue.vundefined then
    (.notConfigured500, [])
  else if jsToNumber price = some 0 then
    (.nextFree, [])
  else
    match paymentHeader with
    | none => (sendPaymentRequired mw path price none, [])
    | some h =>
        let v := verifyPayment mw dec fac h price
        if v.1.success = false then
          (sendPaymentRequired mw path price v.1.error, v.2)
        else
          let s := settlePayment mw dec fac h price
          if s.1.success = false then
            (.settlementFailed402 s.1.error, v.2 ++ s.2)
          else
            (.nextPaid price s.1.txHash v.1.payerAddress, v.2 ++ s.2)

/-- The runtime distribution policy of the revenue distributor
(spec §3): validator-share percentage, optional treasury address,
treasury percentage. -/
structure DistributionPolicy where
  validatorPercentage : ℕ
  treasuryAddress : Option String
  treasuryPercentage : ℕ
  deriving DecidableEq, Repr

/-- Modelled from the spec: the Revenue Distributor's pure three-way
split (§4.4) — the distributor itself lives in the blockchain core's
native rewards module, which is not part of this repository slice
(only the HTTP middleware is).  Faithful to the spec's words:
`validatorShare = floor(amount × validatorPercentage / 100)`,
`treasuryShare = floor(amount × treasuryPercentage / 100)` if a
treasury address is configured else `0`, and
`developerNet = amount − validatorShare − treasuryShare`, absorbing
the division remainders.  Returned as
`(developerNet, validatorShare, treasuryShare)`. -/
def split (amount : ℕ) (p : DistributionPolicy) : ℕ × ℕ × ℕ :=
  let validatorShare := amount * p.validatorPercentage / 100
  let treasuryShare :=
    if p.treasuryAddress.isSome then amount * p.treasuryPercentage / 100 else 0
  let developerNet := amount - validatorShare - treasuryShare
  (developerNet, validatorShare, treasuryShare)

/-- Price resolution written the way the corresponding claim states
it, to be compared with `getPrice` as embedded from the source: the
exact-match entry if one exists and is truthy, otherwise the first
pattern in insertion order whose wildcard expansion matches the path,
otherwise the configured default price, otherwise null. -/
def getPriceSpecOrder (defaultPrice : JsValue) (pricing : List (String × JsValue))
    (path : String) : JsValue :=
  let exact : Option JsValue :=
    match pricing.lookup path with
    | some v => if jsTruthy v then some v else none
    | none => none
  let patterned : Option JsValue := (pricing.find? fun pp => matchPath path pp.1).map (·.2)
  let dflt : Option JsValue :=
    if defaultPrice = JsValue.vnull ∨ defaultPrice = JsValue.vundefined then none
    else some defaultPrice
  ((exact.or patterned).or dflt).getD .vnull

/-- The field values asserted of every requirements object the
middleware builds: scheme `exact`, the configured network and payTo,
the all-zero native asset, the 300-second timeout, and the `spldToWei`
encoding of the price as `maxAmountRequired`. -/
def wellFormedRequirements (mw : Middleware) (price : JsValue) (r : Requirements) : Prop :=
  r.scheme = "exact" ∧ r.network = mw.network ∧ r.payTo = mw.payTo ∧
    r.asset = "0x0000000000000000000000000000000000000000" ∧
    r.maxTimeoutSeconds = 300 ∧ spldToWei price = some r.maxAmountRequired

/-! Concrete fixtures used by the witnesses below. -/

/-- A middleware instance as the README's quick start configures it. -/
def mwX : Middleware :=
  { rpcUrl := .vstr "http://localhost:80"
    facilitatorUrl := .vstr "http://localhost:80"
    payTo := .vstr "0xYourWalletAddress"
    pricing :=
      [("/api/premium", .vstr "0.0001"), ("/api/data/*", .vstr "0.01"),
       ("/api/free", .vstr "0")]
    defaultPrice := .vnull
    network := .vstr "splendor"
    chainId := .vnum 2691 }

/-- A header decoder that decodes every header to a fixed payload. -/
def decX : String → Option PaymentData := fun _ => some (.vstr "signed-payload")

/-- A header decoder on which decoding always throws. -/
def decFailX : String → Option PaymentData := fun _ => none

/-- The requirements literal `mwX` builds for the price `0.0001`. -/
def reqsX : Requirements :=
  { scheme := "exact"
    network := .vstr "splendor"
    maxAmountRequired := "0x5af3107a4000"
    resource := "api-access"
    description := "API access payment"
    mimeType := "application/json"
    payTo := .vstr "0xYourWalletAddress"
    maxTimeoutSeconds := 300
    asset := "0x0000000000000000000000000000000000000000" }

/-- A facilitator that accepts and settles every payment. -/
def facOkX : Facilitator :=
  { verifyReply := fun _ _ => .resultReply ⟨true, none, some "0xClientAddress"⟩
    settleReply := fun _ _ => .resultReply ⟨true, none, some "0xTxHash"⟩
    supportedReply := .resultReply ⟨[("exact", "splendor")]⟩ }

/-- A facilitator that rejects verification, rejects settlement, and
answers `x402_supported` with a JSON-RPC error. -/
def facRejectX : Facilitator :=
  { verifyReply := fun _ _ => .resultReply ⟨false, some "invalid signature", none⟩
    settleReply := fun _ _ => .resultReply ⟨false, some "nonce already used", none⟩
    supportedReply := .errorReply "method not found" }

/-- A facilitator whose transport always fails. -/
def facDownX : Facilitator :=
  { verifyReply := fun _ _ => .transportError
    settleReply := fun _ _ => .transportError
    supportedReply := .transportError }

/-- A facilitator that verifies but fails settlement. -/
def facSettleFailX : Facilitator :=
  { verifyReply := fun _ _ => .resultReply ⟨true, none, some "0xClientAddress"⟩
    settleReply := fun _ _ => .resultReply ⟨false, some "insufficient balance", none⟩
    supportedReply := .resultReply ⟨[("exact", "splendor")]⟩ }

example : spldToWei (.vstr "0.0001") = some "0x5af3107a4000" := by decide
example : spldToWei (.vstr "0.001") = some "0x38d7ea4c68000" := by decide
example : getPrice JsValue.vnull mwX.pricing "/api/data/query" = .vstr "0.01" := by decide
example : getPrice JsValue.vnull mwX.pricing "/nope" = .vnull := by decide
example :
    express mwX decX facOkX "/api/premium" (some "hdr") =
      (.nextPaid (.vstr "0.0001") (some "0xTxHash") (some "0xClientAddress"),
       [.x402Verify reqsX (.vstr "signed-payload"), .x402Settle reqsX (.vstr "signed-payload")]) := by
  decide
example : express mwX decX facOkX "/api/free" none = (.nextFree, []) := by decide
example : express mwX decX facOkX "/nope" none = (.notConfigured500, []) := by decide

/-! Theorems. -/

/-- C1: for every settled amount from 1 up to `maxAmountRequired`, the
three-way revenue split satisfies
`developerNet + validatorShare + treasuryShare = amount` as an exact
integer identity, the developer net absorbing the integer-division
remainder, under the policy invariant that the validator and treasury
percentages sum to at most 100 (spec §3/§7: the setter rejects updates
pushing the combined shares above 100%). -/
theorem split_exact_partition (amount maxAmountRequired : ℕ) (p : DistributionPolicy)
    (hlo : 1 ≤ amount) (hhi : amount ≤ maxAmountRequired)
    (hpol : p.validatorPercentage + p.treasuryPercentage ≤ 100) :
    (split amount p).1 + (split amount p).2.1 + (split amount p).2.2 = amount := by
  have hshares : amount * p.validatorPercentage / 100 +
      amount * p.treasuryPercentage / 100 ≤ amount := by
    have h1 : (amount * p.validatorPercentage / 100 +
        amount * p.treasuryPercentage / 100) * 100 ≤
        amount * p.validatorPercentage + amount * p.treasuryPercentage := by
      rw [add_mul]
      exact Nat.add_le_add (Nat.div_mul_le_self _ _) (Nat.div_mul_le_self _ _)
    have h2 : amount * p.validatorPercentage + amount * p.treasuryPercentage ≤
        amount * 100 := by
      rw [← Nat.mul_add]
      exact Nat.mul_le_mul_left amount hpol
    exact Nat.le_of_mul_le_mul_right (le_trans h1 h2) (by norm_num)
  simp only [split]
  split_ifs with hts <;> omega

/-- Witness for the split partition theorem at the spec's worked
example: amount 1000000, 10% validator share, no treasury. -/
theorem split_exact_partition_witness :
    (split 1000000 ⟨10, none, 0⟩).1 + (split 1000000 ⟨10, none, 0⟩).2.1 +
      (split 1000000 ⟨10, none, 0⟩).2.2 = 1000000 :=
  split_exact_partition 1000000 1000000 ⟨10, none, 0⟩ (by decide) (by decide) (by decide)

/-- C3: the amount encoder renders the price 0.0001 SPLD as the
hexadecimal big-integer string for `10^14` smallest units,
`0x5af3107a4000`. -/
theorem spldToWei_tenthousandth :
    spldToWei (.vstr "0.0001") = some "0x5af3107a4000" := by decide

/-- C4 counterexample: the wire encoding of 0.0001 in 18-decimal fixed
point produced by `spldToWei` is not `0x38d7ea4c68000`. -/
theorem spldToWei_tenthousandth_not_38d7 :
    spldToWei (.vstr "0.0001") ≠ some "0x38d7ea4c68000" := by decide

/-- C4 amended: `0x38d7ea4c68000` is the wire encoding of 0.001 asset
units (`10^15` smallest units), not of 0.0001. -/
theorem spldToWei_thousandth :
    spldToWei (.vstr "0.001") = some "0x38d7ea4c68000" := by decide

/-- C5: whenever the `x402_verify` reply carries a `result` (no
RPC-level error), `verifyPayment` resolves to `success = isValid`,
`error = invalidReason`, `payerAddress = payerAddress` of that
result. -/
theorem verifyPayment_maps_result (mw : Middleware) (dec : String → Option PaymentData)
    (fac : Facilitator) (h : String) (price : JsValue) (pd : PaymentData)
    (reqs : Requirements) (r : VerifyRpcResult)
    (hdec : dec h = some pd) (hreqs : verifyRequirements mw price = some reqs)
    (hrep : fac.verifyReply reqs pd = .resultReply r) :
    (verifyPayment mw dec fac h price).1 = ⟨r.isValid, r.invalidReason, r.payerAddress⟩ := by
  simp only [verifyPayment, hdec, hreqs, hrep]

/-- Witness for the `verifyPayment` result mapping at a concrete
accepted payment. -/
theorem verifyPayment_maps_result_witness :
    (verifyPayment mwX decX facOkX "hdr" (.vstr "0.0001")).1 =
      ⟨true, none, some "0xClientAddress"⟩ :=
  verifyPayment_maps_result mwX decX facOkX "hdr" (.vstr "0.0001")
    (.vstr "signed-payload") reqsX ⟨true, none, some "0xClientAddress"⟩
    rfl (by decide) rfl

/-- Helper: `verifyPayment` posts either nothing (decoding or
requirement building threw) or exactly one `x402_verify` request. -/
theorem verifyPayment_calls (mw : Middleware) (dec : String → Option PaymentData)
    (fac : Facilitator) (h : String) (price : JsValue) :
    (verifyPayment mw dec fac h price).2 = [] ∨
      ∃ reqs pd, dec h = some pd ∧ verifyRequirements mw price = some reqs ∧
        (verifyPayment mw dec fac h price).2 = [.x402Verify reqs pd] := by
  unfold verifyPayment
  cases hd : dec h with
  | none => exact .inl rfl
  | some pd =>
      dsimp only
      cases hr : verifyRequirements mw price with
      | none => exact .inl rfl
      | some reqs =>
          dsimp only
          cases fac.verifyReply reqs pd <;> exact .inr ⟨reqs, pd, rfl, rfl, rfl⟩

/-- Helper: no `x402_settle` request ever appears among the requests
`verifyPayment` posts. -/
theorem settle_not_in_verify_calls (mw : Middleware) (dec : String → Option PaymentData)
    (fac : Facilitator) (h : String) (price : JsValue) (reqs : Requirements)
    (pd : PaymentData) :
    RpcCall.x402Settle reqs pd ∉ (verifyPayment mw dec fac h price).2 := by
  unfold verifyPayment
  cases dec h with
  | none => simp
  | some pd2 =>
      dsimp only
      cases verifyRequirements mw price with
      | none => simp
      | some reqs2 =>
          dsimp only
          cases fac.verifyReply reqs2 pd2 <;> simp

/-- Helper: the Express handler on a priced, non-free endpoint with a
payment header, written as the verify/settle decision tree. -/
theorem express_with_header (mw : Middleware) (dec : String → Option PaymentData)
    (fac : Facilitator) (path h : String) (price : JsValue)
    (hp : price = getPrice mw.defaultPrice mw.pricing path)
    (hnn : price ≠ JsValue.vnull) (hnu : price ≠ JsValue.vundefined)
    (hnz : jsToNumber price ≠ some 0) :
    express mw dec fac path (some h) =
      (if (verifyPayment mw dec fac h price).1.success = false then
        (sendPaymentRequired mw path price (verifyPayment mw dec fac h price).1.error,
         (verifyPayment mw dec fac h price).2)
      else if (settlePayment mw dec fac h price).1.success = false then
        (.settlementFailed402 (settlePayment mw dec fac h price).1.error,
         (verifyPayment mw dec fac h price).2 ++ (settlePayment mw dec fac h price).2)
      else
        (.nextPaid price (settlePayment mw dec fac h price).1.txHash
           (verifyPayment mw dec fac h price).1.payerAddress,
         (verifyPayment mw dec fac h price).2 ++ (settlePayment mw dec fac h price).2)) := by
  subst hp
  simp only [express]
  rw [if_neg (not_or.mpr ⟨hnn, hnu⟩), if_neg hnz]

/-- C2: on a priced, non-free endpoint receiving an `X-Payment`
header, whenever the header decodes to a payment (and the
requirements build), the handler's first facilitator request is
`x402_verify`; an `x402_settle` request is posted only when
verification reported valid; and a failed verification answers 402
with the payment requirements and the failure reason, with no
`x402_settle` request at all. -/
theorem verify_gates_settle (mw : Middleware) (dec : String → Option PaymentData)
    (fac : Facilitator) (path h : String) (price : JsValue)
    (hp : price = getPrice mw.defaultPrice mw.pricing path)
    (hnn : price ≠ JsValue.vnull) (hnu : price ≠ JsValue.vundefined)
    (hnz : jsToNumber price ≠ some 0) :
    (∀ pd reqs, dec h = some pd → verifyRequirements mw price = some reqs →
        (express mw dec fac path (some h)).2.head? = some (.x402Verify reqs pd))
  ∧ (∀ reqs pd, RpcCall.x402Settle reqs pd ∈ (express mw dec fac path (some h)).2 →
        (verifyPayment mw dec fac h price).1.success = true)
  ∧ ((verifyPayment mw dec fac h price).1.success = false →
        (express mw dec fac path (some h)).1 =
          sendPaymentRequired mw path price (verifyPayment mw dec fac h price).1.error ∧
        ∀ reqs pd, RpcCall.x402Settle reqs pd ∉ (express mw dec fac path (some h)).2) := by
  have he := express_with_header mw dec fac path h price hp hnn hnu hnz
  refine ⟨?_, ?_, ?_⟩
  · intro pd reqs hd hr
    have hcalls : (verifyPayment mw dec fac h price).2 = [.x402Verify reqs pd] := by
      simp only [verifyPayment, hd, hr]
      cases fac.verifyReply reqs pd <;> rfl
    rw [he]
    by_cases hs : (verifyPayment mw dec fac h price).1.success = false
    · rw [if_pos hs]; simp [hcalls]
    · rw [if_neg hs]
      by_cases hs2 : (settlePayment mw dec fac h price).1.success = false
      · rw [if_pos hs2]; simp [hcalls]
      · rw [if_neg hs2]; simp [hcalls]
  · intro reqs pd hmem
    by_cases hs : (verifyPayment mw dec fac h price).1.success = false
    · exfalso
      rw [he, if_pos hs] at hmem
      exact settle_not_in_verify_calls mw dec fac h price reqs pd hmem
    · cases hb : (verifyPayment mw dec fac h price).1.success with
      | false => exact absurd hb hs
      | true => rfl
  · intro hs
    constructor
    · rw [he, if_pos hs]
    · intro reqs pd
      rw [he, if_pos hs]
      exact settle_not_in_verify_calls mw dec fac h price reqs pd

/-- Witness for the verify-gates-settle theorem: with a facilitator
that rejects verification, the handler answers the 402 challenge with
the reason and posts no `x402_settle`; the lone posted request is the
`x402_verify`. -/
theorem verify_gates_settle_witness :
    (express mwX decX facRejectX "/api/premium" (some "hdr")).2.head? =
      some (.x402Verify reqsX (.vstr "signed-payload")) ∧
    (express mwX decX facRejectX "/api/premium" (some "hdr")).1 =
      sendPaymentRequired mwX "/api/premium" (.vstr "0.0001") (some "invalid signature") ∧
    RpcCall.x402Settle reqsX (.vstr "signed-payload") ∉
      (express mwX decX facRejectX "/api/premium" (some "hdr")).2 := by
  have hthm := verify_gates_settle mwX decX facRejectX "/api/premium" "hdr"
    (.vstr "0.0001") (by decide) (by decide) (by decide) (by decide)
  refine ⟨hthm.1 (.vstr "signed-payload") reqsX rfl (by decide), ?_, ?_⟩
  · have hv : (verifyPayment mwX decX facRejectX "hdr" (.vstr "0.0001")).1.success = false := by
      decide
    exact ((hthm.2.2 hv).1).trans (by decide)
  · have hv : (verifyPayment mwX decX facRejectX "hdr" (.vstr "0.0001")).1.success = false := by
      decide
    exact (hthm.2.2 hv).2 reqsX (.vstr "signed-payload")

/-- C6: `settlePayment` returns `success`, `error` and `txHash` taken
from the `x402_settle` result, and when that success is false the
handler ends in the `402 Payment settlement failed` response carrying
the reason — not in the `nextPaid` continuation, so the handler chain
is not continued and no access is granted. -/
theorem settlePayment_maps_result_and_blocks (mw : Middleware)
    (dec : String → Option PaymentData) (fac : Facilitator) (path h : String)
    (price : JsValue)
    (hp : price = getPrice mw.defaultPrice mw.pricing path)
    (hnn : price ≠ JsValue.vnull) (hnu : price ≠ JsValue.vundefined)
    (hnz : jsToNumber price ≠ some 0) :
    (∀ pd reqs r, dec h = some pd → settleRequirements mw price = some reqs →
        fac.settleReply reqs pd = .resultReply r →
        (settlePayment mw dec fac h price).1 = ⟨r.success, r.error, r.txHash⟩)
  ∧ ((verifyPayment mw dec fac h price).1.success = true →
      (settlePayment mw dec fac h price).1.success = false →
      (express mw dec fac path (some h)).1 =
        .settlementFailed402 (settlePayment mw dec fac h price).1.error) := by
  constructor
  · intro pd reqs r hd hr hrep
    simp only [settlePayment, hd, hr, hrep]
  · intro hv hs
    rw [express_with_header mw dec fac path h price hp hnn hnu hnz]
    rw [if_neg (by simp [hv]), if_pos hs]

/-- Witness for the settlement-failure theorem: a facilitator that
verifies but fails settlement makes the handler answer the
settlement-failed 402 with the reason. -/
theorem settlePayment_maps_result_and_blocks_witness :
    (settlePayment mwX decX facSettleFailX "hdr" (.vstr "0.0001")).1 =
      ⟨false, some "insufficient balance", none⟩ ∧
    (express mwX decX facSettleFailX "/api/premium" (some "hdr")).1 =
      .settlementFailed402 (some "insufficient balance") := by
  have hthm := settlePayment_maps_result_and_blocks mwX decX facSettleFailX
    "/api/premium" "hdr" (.vstr "0.0001") (by decide) (by decide) (by decide) (by decide)
  refine ⟨hthm.1 (.vstr "signed-payload") reqsX ⟨false, some "insufficient balance", none⟩
    rfl (by decide) rfl, ?_⟩
  exact (hthm.2 (by decide) (by decide)).trans (by decide)

/-- Helper: the `verifyPayment` requirements literal has the asserted
field values. -/
theorem verifyRequirements_wellFormed (mw : Middleware) (price : JsValue)
    (r : Requirements) (h : verifyRequirements mw price = some r) :
    wellFormedRequirements mw price r := by
  cases hw : spldToWei price with
  | none => simp [verifyRequirements, hw] at h
  | some w =>
      simp only [verifyRequirements, hw, Option.map_some', Option.some.injEq] at h
      subst h
      simp [wellFormedRequirements, hw]

/-- Helper: the `settlePayment` requirements literal has the asserted
field values. -/
theorem settleRequirements_wellFormed (mw : Middleware) (price : JsValue)
    (r : Requirements) (h : settleRequirements mw price = some r) :
    wellFormedRequirements mw price r := by
  cases hw : spldToWei price with
  | none => simp [settleRequirements, hw] at h
  | some w =>
      simp only [settleRequirements, hw, Option.map_some', Option.some.injEq] at h
      subst h
      simp [wellFormedRequirements, hw]

/-- Helper: the 402-challenge `accepts[0]` literal has the asserted
field values. -/
theorem challengeAccepts_wellFormed (mw : Middleware) (path : String) (price : JsValue)
    (r : Requirements) (h : challengeAccepts mw path price = some r) :
    wellFormedRequirements mw price r := by
  cases hw : spldToWei price with
  | none => simp [challengeAccepts, hw] at h
  | some w =>
      simp only [challengeAccepts, hw, Option.map_some', Option.some.injEq] at h
      subst h
      simp [wellFormedRequirements, hw]

/-- C7: every requirements object the middleware constructs — for
verification, for settlement, and for 402 payment challenges — has
scheme `exact`, the configured network, the configured payTo, the
all-zero native-asset address, a 300-second max timeout, and the
`spldToWei` wire encoding of the resolved price as
`maxAmountRequired`. -/
theorem requirements_fields (mw : Middleware) (price : JsValue) (path : String)
    (r1 r2 r3 : Requirements)
    (h1 : verifyRequirements mw price = some r1)
    (h2 : settleRequirements mw price = some r2)
    (h3 : challengeAccepts mw path price = some r3) :
    wellFormedRequirements mw price r1 ∧ wellFormedRequirements mw price r2 ∧
      wellFormedRequirements mw price r3 :=
  ⟨verifyRequirements_wellFormed mw price r1 h1,
   settleRequirements_wellFormed mw price r2 h2,
   challengeAccepts_wellFormed mw path price r3 h3⟩

/-- Witness for the requirements-fields theorem at the quick-start
configuration and price 0.0001. -/
theorem requirements_fields_witness :
    wellFormedRequirements mwX (.vstr "0.0001") reqsX ∧
    wellFormedRequirements mwX (.vstr "0.0001")
      { reqsX with resource := "/api/premium",
                   description := "Payment required for /api/premium" } :=
  have hthm := requirements_fields mwX (.vstr "0.0001") "/api/premium" reqsX reqsX
    { reqsX with resource := "/api/premium",
                 description := "Payment required for /api/premium" }
    (by decide) (by decide) (by decide)
  ⟨hthm.1, hthm.2.2⟩

/-- Helper: the scan-and-default fall-through of `getPrice`, written
as the option chain used by the resolution-order statement. -/
theorem getPriceScan_eq_chain (dp : JsValue) (pricing : List (String × JsValue))
    (path : String) :
    getPriceScan dp pricing path =
      (((pricing.find? fun pp => matchPath path pp.1).map (·.2)).or
        (if dp = JsValue.vnull ∨ dp = JsValue.vundefined then none else some dp)).getD
        JsValue.vnull := by
  unfold getPriceScan
  cases hf : pricing.find? (fun pp => matchPath path pp.1) with
  | none =>
      by_cases h1 : dp = JsValue.vnull
      · subst h1; simp [Option.or]
      · by_cases h2 : dp = JsValue.vundefined
        · subst h2; simp [Option.or]
        · simp [h1, h2, Option.or]
  | some pp => simp [Option.or]

/-- C8: `getPrice` resolves prices in the stated order (it agrees with
`getPriceSpecOrder`: truthy exact match, then first matching pattern
in insertion order, then the configured default, then null); a null or
undefined resolved price makes the handler answer
`500 price not configured` with no RPC call; a resolved price of
numeric value 0 continues to the resource handler free of charge with
no RPC call. -/
theorem price_resolution_and_dispatch (dp : JsValue) (pricing : List (String × JsValue))
    (mw : Middleware) (dec : String → Option PaymentData) (fac : Facilitator)
    (path : String) (header : Option String) :
    getPrice dp pricing path = getPriceSpecOrder dp pricing path
  ∧ (getPrice mw.defaultPrice mw.pricing path = JsValue.vnull ∨
       getPrice mw.defaultPrice mw.pricing path = JsValue.vundefined →
       express mw dec fac path header = (.notConfigured500, []))
  ∧ (getPrice mw.defaultPrice mw.pricing path ≠ JsValue.vnull →
       getPrice mw.defaultPrice mw.pricing path ≠ JsValue.vundefined →
       jsToNumber (getPrice mw.defaultPrice mw.pricing path) = some 0 →
       express mw dec fac path header = (.nextFree, [])) := by
  refine ⟨?_, ?_, ?_⟩
  · unfold getPrice getPriceSpecOrder
    rcases pricing.lookup path with _ | v
    · dsimp only
      rw [getPriceScan_eq_chain]
      simp [Option.or]
    · dsimp only
      cases jsTruthy v
      · simp only [Bool.false_eq_true, if_false]
        rw [getPriceScan_eq_chain]
        simp [Option.or]
      · simp [Option.or]
  · intro hnull
    simp only [express]
    rw [if_pos hnull]
  · intro hnn hnu hz
    simp only [express]
    rw [if_neg (not_or.mpr ⟨hnn, hnu⟩), if_pos hz]

/-- Witness for the price-resolution theorem: a wildcard-priced path
resolves per the stated order, an unpriced path answers 500, and the
free endpoint continues with no RPC call. -/
theorem price_resolution_and_dispatch_witness :
    getPrice JsValue.vnull mwX.pricing "/api/data/query" =
      getPriceSpecOrder JsValue.vnull mwX.pricing "/api/data/query" ∧
    express mwX decX facOkX "/nope" none = (.notConfigured500, []) ∧
    express mwX decX facOkX "/api/free" (some "hdr") = (.nextFree, []) := by
  refine ⟨(price_resolution_and_dispatch JsValue.vnull mwX.pricing mwX decX facOkX
      "/api/data/query" none).1, ?_, ?_⟩
  · exact (price_resolution_and_dispatch JsValue.vnull mwX.pricing mwX decX facOkX
      "/nope" none).2.1 (by decide)
  · exact (price_resolution_and_dispatch JsValue.vnull mwX.pricing mwX decX facOkX
      "/api/free" (some "hdr")).2.2 (by decide) (by decide) (by decide)

/-- C9 counterexample: on an RPC-level error reply, `getSupported`
returns the reply's absent `result` (the JS value `undefined`), not
`{kinds: []}` — the source returns `response.data.result` without
checking `response.data.error`. -/
theorem getSupported_error_reply_counterexample :
    getSupported facRejectX = .jsUndefined ∧
      getSupported facRejectX ≠ .obj [] := by decide

/-- C9 amended: `verifyPayment` and `settlePayment` never propagate an
exception — an undecodable payment header, a transport failure, or an
RPC-level error each resolve to `success: false` with an error string;
`getSupported` returns `{kinds: []}` on a transport failure, while on
an RPC-level error reply it returns the reply's absent result
(`undefined`) rather than `{kinds: []}`. -/
theorem interface_failure_modes (mw : Middleware) (dec : String → Option PaymentData)
    (fac : Facilitator) (h : String) (price : JsValue) (m : String) :
    (dec h = none →
        (verifyPayment mw dec fac h price).1 = ⟨false, some "Verification failed", none⟩ ∧
        (settlePayment mw dec fac h price).1 = ⟨false, some "Settlement failed", none⟩)
  ∧ (∀ pd reqs, dec h = some pd → verifyRequirements mw price = some reqs →
        fac.verifyReply reqs pd = .transportError →
        (verifyPayment mw dec fac h price).1 = ⟨false, some "Verification failed", none⟩)
  ∧ (∀ pd reqs, dec h = some pd → verifyRequirements mw price = some reqs →
        fac.verifyReply reqs pd = .errorReply m →
        (verifyPayment mw dec fac h price).1 = ⟨false, some m, none⟩)
  ∧ (∀ pd reqs, dec h = some pd → settleRequirements mw price = some reqs →
        fac.settleReply reqs pd = .transportError →
        (settlePayment mw dec fac h price).1 = ⟨false, some "Settlement failed", none⟩)
  ∧ (∀ pd reqs, dec h = some pd → settleRequirements mw price = some reqs →
        fac.settleReply reqs pd = .errorReply m →
        (settlePayment mw dec fac h price).1 = ⟨false, some m, none⟩)
  ∧ (fac.supportedReply = .transportError → getSupported fac = .obj [])
  ∧ (fac.supportedReply = .errorReply m → getSupported fac = .jsUndefined) := by
  refine ⟨?_, ?_, ?_, ?_, ?_, ?_, ?_⟩
  · intro hd
    exact ⟨by simp only [verifyPayment, hd], by simp only [settlePayment, hd]⟩
  · intro pd reqs hd hr hrep
    simp only [verifyPayment, hd, hr, hrep]
  · intro pd reqs hd hr hrep
    simp only [verifyPayment, hd, hr, hrep]
  · intro pd reqs hd hr hrep
    simp only [settlePayment, hd, hr, hrep]
  · intro pd reqs hd hr hrep
    simp only [settlePayment, hd, hr, hrep]
  · intro hs
    simp only [getSupported, hs]
  · intro hs
    simp only [getSupported, hs]

/-- Witness for the failure-mode theorem: undecodable headers and a
downed transport resolve to the fixed failure objects, and the
`x402_supported` fallbacks behave as amended. -/
theorem interface_failure_modes_witness :
    (verifyPayment mwX decFailX facDownX "hdr" (.vstr "0.0001")).1 =
      ⟨false, some "Verification failed", none⟩ ∧
    (settlePayment mwX decX facDownX "hdr" (.vstr "0.0001")).1 =
      ⟨false, some "Settlement failed", none⟩ ∧
    getSupported facDownX = .obj [] ∧
    getSupported facRejectX = .jsUndefined := by
  refine ⟨?_, ?_, ?_, ?_⟩
  · exact ((interface_failure_modes mwX decFailX facDownX "hdr" (.vstr "0.0001") "m").1
      rfl).1
  · exact (interface_failure_modes mwX decX facDownX "hdr" (.vstr "0.0001") "m").2.2.2.1
      (.vstr "signed-payload") reqsX rfl (by decide) rfl
  · exact (interface_failure_modes mwX decX facDownX "hdr" (.vstr "0.0001") "m").2.2.2.2.2.1
      rfl
  · exact (interface_failure_modes mwX decX facRejectX "hdr" (.vstr "0.0001")
      "method not found").2.2.2.2.2.2 rfl

/-- C10 counterexample: an options object that supplies `payTo` (as
the empty string) still makes construction throw — the constructor
checks truthiness, not presence. -/
theorem mkMiddleware_present_falsy_payTo_counterexample :
    mkMiddleware { payTo := some (.vstr "") } = .error "payTo address is required" := rfl

/-- C10 amended: construction without a `payTo` option (or with a
falsy one) throws `payTo address is required`; with a truthy `payTo`
it succeeds, defaulting `rpcUrl` to `http://localhost:80`, `network`
to `splendor`, `chainId` to `2691` and `defaultPrice` to `null` when
those options are absent. -/
theorem mkMiddleware_payTo_gate (o : Options) :
    (o.payTo = none → mkMiddleware o = .error "payTo address is required")
  ∧ (∀ p, o.payTo = some p → jsTruthy p = false →
        mkMiddleware o = .error "payTo address is required")
  ∧ (∀ p, o.payTo = some p → jsTruthy p = true →
        ∃ mw, mkMiddleware o = .ok mw ∧ mw.payTo = p ∧
          (o.rpcUrl = none → mw.rpcUrl = .vstr "http://localhost:80") ∧
          (o.network = none → mw.network = .vstr "splendor") ∧
          (o.chainId = none → mw.chainId = .vnum 2691) ∧
          (o.defaultPrice = none → mw.defaultPrice = .vnull)) := by
  refine ⟨?_, ?_, ?_⟩
  · intro hp
    simp [mkMiddleware, hp, jsTruthy]
  · intro p hp hf
    simp [mkMiddleware, hp, hf]
  · intro p hp ht
    refine ⟨⟨jsOr o.rpcUrl (.vstr "http://localhost:80"),
             jsOr o.facilitatorUrl (jsOr o.rpcUrl (.vstr "http://localhost:80")),
             p, o.pricing.getD [], o.defaultPrice.getD .vnull,
             jsOr o.network (.vstr "splendor"), jsOr o.chainId (.vnum 2691)⟩,
           ?_, rfl, ?_, ?_, ?_, ?_⟩
    · simp [mkMiddleware, hp, ht]
    · intro hr; rw [hr]; rfl
    · intro hn; rw [hn]; rfl
    · intro hc; rw [hc]; rfl
    · intro hd; rw [hd]; rfl

/-- Witness for the constructor theorem: omitting `payTo` throws, and
a truthy `payTo` with everything else absent yields the documented
defaults. -/
theorem mkMiddleware_payTo_gate_witness :
    mkMiddleware {} = .error "payTo address is required" ∧
    ∃ mw, mkMiddleware { payTo := some (.vstr "0xYourWalletAddress") } = .ok mw ∧
      mw.payTo = .vstr "0xYourWalletAddress" ∧
      mw.rpcUrl = .vstr "http://localhost:80" ∧ mw.network = .vstr "splendor" ∧
      mw.chainId = .vnum 2691 ∧ mw.defaultPrice = .vnull := by
  constructor
  · exact (mkMiddleware_payTo_gate {}).1 rfl
  · obtain ⟨mw, hok, hpt, hr, hn, hc, hd⟩ :=
      (mkMiddleware_payTo_gate { payTo := some (.vstr "0xYourWalletAddress") }).2.2
        (.vstr "0xYourWalletAddress") rfl (by decide)
    exact ⟨mw, hok, hpt, hr rfl, hn rfl, hc rfl, hd rfl⟩

end X402
